import Mathlib

/-!
Verification development for the `importvolume` tool.

The definitions below are a shallow embedding of the program's core:
the template-expansion engine (Go's `os.Expand` together with the
missing-token collection done in `resolveTemplate` and
`genVolumeHandle`), the DNS-1123 subdomain validator
(`validation.IsDNS1123Subdomain`), the secret-reference resolver
(`getSecretTemplate` / `GetSecret` / `resolveTemplate` from
`pkg/util`), and the provisioning orchestrator
(`NewVolumeImporter` / `setSecret` / `genFsType` / `genAttributes` /
`genVolumeHandle` from `pkg/importer`).  File and network I/O
(reading the claim file, fetching the StorageClass, the create calls)
are externalized as explicit inputs: the parsed claim, the storage
class record, and a template store function.

Machine strings are modelled as Lean `String` (a wrapper around
`List Char`); Go maps are modelled as association lists with
first-match lookup (Go maps have unique keys, so lookup agrees).
-/

/-- The `\x7b` character, written via its code point. -/
def lbraceC : Char := Char.ofNat 123

/-- The `\x7d` character, written via its code point. -/
def rbraceC : Char := Char.ofNat 125

/-- The single-quote character, written via its code point. -/
def squoteC : Char := Char.ofNat 39

/-- Go `os.isShellSpecialVar`: the one-character shell variables. -/
def isShellSpecialVar (c : Char) : Bool :=
  c = '*' || c = '#' || c = '$' || c = '@' || c = '!' || c = '?' || c = '-' ||
    (decide (48 ≤ c.toNat) && decide (c.toNat ≤ 57))

/-- Go `os.isAlphaNum`: underscore, digits, lower/upper ASCII letters. -/
def isAlphaNum (c : Char) : Bool :=
  c = '_' || (decide (48 ≤ c.toNat) && decide (c.toNat ≤ 57)) ||
    (decide (97 ≤ c.toNat) && decide (c.toNat ≤ 122)) ||
    (decide (65 ≤ c.toNat) && decide (c.toNat ≤ 90))

/-- The maximal alphanumeric run at the head of the list (the scan loop of
Go `os.getShellName` for an unbraced variable name). -/
def takeAlnum : List Char → List Char
  | [] => []
  | c :: cs => if isAlphaNum c then c :: takeAlnum cs else []

/-- Scan to the first closing brace, returning the characters before it;
`none` when no closing brace exists (Go `os.getShellName`, braced case). -/
def braceScanAux : List Char → Option (List Char)
  | [] => none
  | c :: cs => if c = rbraceC then some [] else (braceScanAux cs).map (fun n => c :: n)

/-- Go `os.getShellName`, applied to the text following a dollar sign:
returns the variable name and the number of characters consumed.
A braced form consumes the braces; an empty name with positive width is
invalid syntax that `os.Expand` eats; an empty name with width zero means
the dollar sign stands alone and is kept verbatim. -/
def getShellName : List Char → List Char × Nat
  | [] => ([], 0)
  | c :: cs =>
    if c = lbraceC then
      match braceScanAux cs with
      | some name => (name, name.length + 2)
      | none => ([], 1)
    else if isShellSpecialVar c then ([c], 1)
    else (takeAlnum (c :: cs), (takeAlnum (c :: cs)).length)

/-- Go `os.Expand` specialised to the lookup closure used by
`resolveTemplate` and `genVolumeHandle`: substitute every recognised
variable, substituting the empty string and recording the name whenever
the lookup misses (the closure inserts it into a `sets.String`).
Returns the expanded characters and the recorded missing names in scan
order.  The `Nat` argument is recursion fuel; the wrapper `expandCollect`
passes the input length, which always suffices because every step consumes
at least one character. -/
def expandAux (f : String → Option String) : Nat → List Char → List Char × List String
  | 0, _ => ([], [])
  | _ + 1, [] => ([], [])
  | fuel + 1, c :: rest =>
    if c = '$' then
      match rest with
      | [] => (['$'], [])
      | _ :: _ =>
        if (getShellName rest).1 = [] then
          if (getShellName rest).2 = 0 then
            ('$' :: (expandAux f fuel rest).1, (expandAux f fuel rest).2)
          else expandAux f fuel (rest.drop (getShellName rest).2)
        else
          match f (String.mk (getShellName rest).1) with
          | some v =>
            (v.data ++ (expandAux f fuel (rest.drop (getShellName rest).2)).1,
              (expandAux f fuel (rest.drop (getShellName rest).2)).2)
          | none =>
            ((expandAux f fuel (rest.drop (getShellName rest).2)).1,
              String.mk (getShellName rest).1 ::
                (expandAux f fuel (rest.drop (getShellName rest).2)).2)
    else (c :: (expandAux f fuel rest).1, (expandAux f fuel rest).2)

/-- Go `os.Expand` with the missing-name collection, on a character list. -/
def expandCollect (f : String → Option String) (l : List Char) : List Char × List String :=
  expandAux f l.length l

/-- The sequence of variable names that the `os.Expand` scan hands to the
lookup closure, in scan order (with multiplicity). -/
def tokensAux : Nat → List Char → List String
  | 0, _ => []
  | _ + 1, [] => []
  | fuel + 1, c :: rest =>
    if c = '$' then
      match rest with
      | [] => []
      | _ :: _ =>
        if (getShellName rest).1 = [] then
          if (getShellName rest).2 = 0 then tokensAux fuel rest
          else tokensAux fuel (rest.drop (getShellName rest).2)
        else String.mk (getShellName rest).1 :: tokensAux fuel (rest.drop (getShellName rest).2)
    else tokensAux fuel rest

/-- All placeholder names of a template, in scan order, with multiplicity. -/
def tokensOf (l : List Char) : List String := tokensAux l.length l

/-- Lookup in a Go map modelled as an association list. -/
def goLookup (params : List (String × String)) (k : String) : Option String :=
  List.lookup k params

/-- Go `sets.String.List()`: the members of the collected set, sorted. -/
def sortedDedup (l : List String) : List String :=
  List.insertionSort (· ≤ ·) l.dedup

/-- The shared body of `resolveTemplate` (pkg/util) and `genVolumeHandle`
(pkg/importer): run `os.Expand` with the collecting closure over the
parameter map; if any name was missing, fail with the sorted missing set
(the Go error `invalid tokens: %q`), otherwise return the expansion. -/
def expandPhase (params : List (String × String)) (t : String) : Except (List String) String :=
  if (expandCollect (goLookup params) t.data).2 = [] then
    Except.ok (String.mk (expandCollect (goLookup params) t.data).1)
  else Except.error (sortedDedup (expandCollect (goLookup params) t.data).2)

/-- Lowercase ASCII alphanumeric, the character class of a DNS-1123 label
interior and of its endpoints. -/
def isLowerAlnum (c : Char) : Bool :=
  (decide (97 ≤ c.toNat) && decide (c.toNat ≤ 122)) ||
    (decide (48 ≤ c.toNat) && decide (c.toNat ≤ 57))

/-- States of the recogniser for the anchored DNS-1123 subdomain pattern
`[a-z0-9]([-a-z0-9]*[a-z0-9])?(\.[a-z0-9]([-a-z0-9]*[a-z0-9])?)*`:
`start` = at the beginning of a label, `after` = just read an
alphanumeric (a label may end here), `dash` = just read a hyphen
(the label may not end here). -/
inductive DnsState
  | start
  | after
  | dash
deriving DecidableEq

/-- Run the DNS-1123 subdomain recogniser. -/
def dnsRun : DnsState → List Char → Bool
  | DnsState.start, [] => false
  | DnsState.after, [] => true
  | DnsState.dash, [] => false
  | DnsState.start, c :: cs => if isLowerAlnum c then dnsRun DnsState.after cs else false
  | DnsState.after, c :: cs =>
    if c = '.' then dnsRun DnsState.start cs
    else if isLowerAlnum c then dnsRun DnsState.after cs
    else if c = '-' then dnsRun DnsState.dash cs
    else false
  | DnsState.dash, c :: cs =>
    if isLowerAlnum c then dnsRun DnsState.after cs
    else if c = '-' then dnsRun DnsState.dash cs
    else false

/-- k8s `validation.IsDNS1123Subdomain` as a Boolean: at most 253
characters and matching the anchored subdomain pattern. -/
def isDNS1123Subdomain (s : String) : Bool :=
  decide (s.length ≤ 253) && dnsRun DnsState.start s.data

/-- The `v1.PersistentVolumeMode` enumeration. -/
inductive PersistentVolumeMode
  | filesystem
  | block
deriving DecidableEq

/-- The fields of `v1.PersistentVolumeClaim` that the program reads:
name, namespace, the annotation map, the storage class name, the
requested storage quantity (opaque here), and the volume mode. -/
structure PVC where
  name : String
  ns : String
  annots : List (String × String)
  storageClassName : String
  storageRequest : String
  volumeMode : Option PersistentVolumeMode
deriving DecidableEq

/-- The fields of `storagev1.StorageClass` that the program reads. -/
structure StorageClass where
  provisioner : String
  parameters : List (String × String)
deriving DecidableEq

/-- The `v1.SecretReference` pair. -/
structure SecretReference where
  ns : String
  name : String
deriving DecidableEq

/-- The error kinds produced by the resolution core. -/
inductive ImportError
  | invalidTokens (tokens : List String)
  | invalidDNSName (template resolved : String)
  | inconsistentSecretConfig (nsTempl nameTempl : String)
  | templateNotFound (driver : String)
deriving DecidableEq

/-- Source `pkg/util.secretType`. -/
inductive secretType
  | ProvisionerSecret
  | ControllerPublishSecret
  | NodeStageSecret
  | NodePublishSecret
  | ControllerExpandSecret
deriving DecidableEq

/-- Source `pkg/util.nsKey`: canonical namespace keys. -/
def nsKey : secretType → String
  | secretType.ProvisionerSecret => "csi.storage.k8s.io/provisioner-secret-namespace"
  | secretType.ControllerPublishSecret => "csi.storage.k8s.io/controller-publish-secret-namespace"
  | secretType.NodeStageSecret => "csi.storage.k8s.io/node-stage-secret-namespace"
  | secretType.NodePublishSecret => "csi.storage.k8s.io/node-publish-secret-namespace"
  | secretType.ControllerExpandSecret => "csi.storage.k8s.io/controller-expand-secret-namespace"

/-- Source `pkg/util.deprecatedNsKey`: deprecated namespace aliases. -/
def deprecatedNsKey : secretType → String
  | secretType.ProvisionerSecret => "provisioner-secret-namespace"
  | secretType.ControllerPublishSecret => "controller-publish-secret-namespace"
  | secretType.NodeStageSecret => "node-stage-secret-namespace"
  | secretType.NodePublishSecret => "node-publish-secret-namespace"
  | secretType.ControllerExpandSecret => "controller-expand-secret-namespace"

/-- Source `pkg/util.nameKey`: canonical name keys. -/
def nameKey : secretType → String
  | secretType.ProvisionerSecret => "csi.storage.k8s.io/provisioner-secret-name"
  | secretType.ControllerPublishSecret => "csi.storage.k8s.io/controller-publish-secret-name"
  | secretType.NodeStageSecret => "csi.storage.k8s.io/node-stage-secret-name"
  | secretType.NodePublishSecret => "csi.storage.k8s.io/node-publish-secret-name"
  | secretType.ControllerExpandSecret => "csi.storage.k8s.io/controller-expand-secret-name"

/-- Source `pkg/util.deprecatedNameKey`: deprecated name aliases. -/
def deprecatedNameKey : secretType → String
  | secretType.ProvisionerSecret => "provisioner-secret-name"
  | secretType.ControllerPublishSecret => "controller-publish-secret-name"
  | secretType.NodeStageSecret => "node-stage-secret-name"
  | secretType.NodePublishSecret => "node-publish-secret-name"
  | secretType.ControllerExpandSecret => "controller-expand-secret-name"

/-- The Go two-step map read `if v, ok = m[k]; !ok { v, ok = m[dk] }`:
value under the canonical key, else under the deprecated key, else the
zero value with `ok = false`. -/
def lookupOr (m : List (String × String)) (k dk : String) : String × Bool :=
  match List.lookup k m with
  | some v => (v, true)
  | none =>
    match List.lookup dk m with
    | some v => (v, true)
    | none => ("", false)

/-- The synthetic token name `pvc.annotations[...]` built by
`resolveTemplate` for a claim annotation key, with the key between
bracket-quote delimiters. -/
def annToken (k : String) : String :=
  "pvc.annotations[" ++ String.mk [squoteC] ++ k ++ String.mk [squoteC] ++ "]"

/-- The parameter map built at the top of `pkg/util.resolveTemplate`:
`pv.name` and `pvc.namespace` always; `pvc.name` and one synthetic token
per claim annotation when resolving a name template. -/
def mkParams (pvName : String) (pvc : PVC) (isName : Bool) : List (String × String) :=
  [("pv.name", pvName), ("pvc.namespace", pvc.ns)] ++
    (if isName then ("pvc.name", pvc.name) :: pvc.annots.map (fun a => (annToken a.1, a.2))
     else [])

/-- Source `pkg/util.resolveTemplate`: build the parameter map, expand the
template collecting missing tokens, then validate the result as a
DNS-1123 subdomain. -/
def resolveTemplate (template : String) (pvName : String) (pvc : PVC) (isName : Bool) :
    Except ImportError String :=
  match expandPhase (mkParams pvName pvc isName) template with
  | Except.error ts => Except.error (ImportError.invalidTokens ts)
  | Except.ok resolved =>
    if isDNS1123Subdomain resolved then Except.ok resolved
    else Except.error (ImportError.invalidDNSName template resolved)

/-- Source `pkg/util.getSecretTemplate`: read the namespace and name templates
under the canonical keys with deprecated fallback; error when exactly one
of the two was found; empty pair when neither was. -/
def getSecretTemplate (scParams : List (String × String)) (sType : secretType) :
    Except ImportError (String × String) :=
  if (lookupOr scParams (nsKey sType) (deprecatedNsKey sType)).2 ≠
      (lookupOr scParams (nameKey sType) (deprecatedNameKey sType)).2 then
    Except.error (ImportError.inconsistentSecretConfig
      (lookupOr scParams (nsKey sType) (deprecatedNsKey sType)).1
      (lookupOr scParams (nameKey sType) (deprecatedNameKey sType)).1)
  else if (lookupOr scParams (nsKey sType) (deprecatedNsKey sType)).2 = false then
    Except.ok ("", "")
  else
    Except.ok ((lookupOr scParams (nsKey sType) (deprecatedNsKey sType)).1,
      (lookupOr scParams (nameKey sType) (deprecatedNameKey sType)).1)

/-- Source `pkg/util.GetSecret`: locate the two templates, return no secret when
either is empty, otherwise resolve the namespace template against the
restricted token set and the name template against the extended one. -/
def GetSecret (scParams : List (String × String)) (sType : secretType) (pvName : String)
    (pvc : PVC) : Except ImportError (Option SecretReference) :=
  match getSecretTemplate scParams sType with
  | Except.error e => Except.error e
  | Except.ok nt =>
    if nt.1 = "" ∨ nt.2 = "" then Except.ok none
    else
      match resolveTemplate nt.1 pvName pvc false with
      | Except.error e => Except.error e
      | Except.ok nsv =>
        match resolveTemplate nt.2 pvName pvc true with
        | Except.error e => Except.error e
        | Except.ok namev => Except.ok (some ⟨nsv, namev⟩)

/-- Source `pkg/importer.pvPrefix`. -/
def pvPre : String := "pv-"

/-- Source `pkg/importer.tokenFsTypeKey`. -/
def tokenFsTypeKey : String := "csi.storage.k8s.io/fsType"

/-- Source `pkg/importer.csiParameterPrefix`. -/
def csiParamPre : String := "csi.storage.k8s.io/"

/-- Source `pkg/importer.VolumeImporter`: the orchestrator state (the kube
client and the template path are externalized). -/
structure VolumeImporter where
  ns : String
  importParams : List (String × String)
  pvc : PVC
  sc : StorageClass
  pvName : String
  volumeHandle : String
  capacity : String
  attributes : List (String × String)
  readOnly : Bool
  volumeMode : Option PersistentVolumeMode
  fsType : String
  controllerPublishSecret : Option SecretReference
  nodeStageSecret : Option SecretReference
  nodePublishSecret : Option SecretReference
  controllerExpandSecret : Option SecretReference
deriving DecidableEq

/-- Go `strings.TrimSuffix(s, "\n")`: drop one trailing newline. -/
def trimNewlineSuffix (s : String) : String :=
  if s.data.getLast? = some '\n' then String.mk s.data.dropLast else s

/-- Source `pkg/importer.genVolumeHandle`: load the driver's template from the
template store (`ioutil.ReadFile` externalized as a lookup), strip a
trailing newline, and expand it against the caller-supplied import
parameters only; missing template and missing tokens are errors. -/
def genVolumeHandle (store : String → Option String) (provisioner : String)
    (importParams : List (String × String)) : Except ImportError String :=
  match store provisioner with
  | none => Except.error (ImportError.templateNotFound provisioner)
  | some template =>
    match expandPhase importParams (trimNewlineSuffix template) with
    | Except.error ts => Except.error (ImportError.invalidTokens ts)
    | Except.ok h => Except.ok h

/-- Source `pkg/importer.(*VolumeImporter).genFsType`: empty for block mode,
else the `csi.storage.k8s.io/fsType` storage-class parameter, else empty. -/
def genFsType (v : VolumeImporter) : String :=
  if v.volumeMode = some PersistentVolumeMode.block then ""
  else
    match List.lookup tokenFsTypeKey v.sc.parameters with
    | some fsType => fsType
    | none => ""

/-- Source `pkg/importer.(*VolumeImporter).genAttributes`: the storage-class
parameters with every key carrying the reserved CSI prefix removed. -/
def genAttributes (v : VolumeImporter) : List (String × String) :=
  v.sc.parameters.filter (fun kv => !(List.isPrefixOf csiParamPre.data kv.1.data))

/-- Source `pkg/importer.(*VolumeImporter).setSecret`: resolve the four secret
categories in order, assigning each field as it is computed and stopping
at the first error.  The returned `Option ImportError` is the Go error
value (which the caller in the source never checks). -/
def setSecret (v : VolumeImporter) : VolumeImporter × Option ImportError :=
  match GetSecret v.sc.parameters secretType.ControllerPublishSecret v.pvName v.pvc with
  | Except.error e => ({ v with controllerPublishSecret := none }, some e)
  | Except.ok s1 =>
    match GetSecret v.sc.parameters secretType.NodeStageSecret v.pvName v.pvc with
    | Except.error e =>
      ({ v with controllerPublishSecret := s1, nodeStageSecret := none }, some e)
    | Except.ok s2 =>
      match GetSecret v.sc.parameters secretType.NodePublishSecret v.pvName v.pvc with
      | Except.error e =>
        ({ v with controllerPublishSecret := s1, nodeStageSecret := s2, nodePublishSecret := none }, some e)
      | Except.ok s3 =>
        match GetSecret v.sc.parameters secretType.ControllerExpandSecret v.pvName v.pvc with
        | Except.error e =>
          ({ v with controllerPublishSecret := s1, nodeStageSecret := s2, nodePublishSecret := s3, controllerExpandSecret := none }, some e)
        | Except.ok s4 =>
          ({ v with controllerPublishSecret := s1, nodeStageSecret := s2, nodePublishSecret := s3, controllerExpandSecret := s4 }, none)

/-- Source `pkg/importer.NewVolumeImporter` with I/O externalized: the claim
definition arrives parsed, the storage class arrives fetched, and the
template directory is a lookup function.  The claim's namespace is
overwritten with the target namespace before anything else uses it.
Mirroring the source, the error returned by `setSecret` is dropped. -/
def NewVolumeImporter (ns : String) (pvcFile : PVC) (sc : StorageClass)
    (importParams : List (String × String)) (store : String → Option String) :
    Except ImportError VolumeImporter :=
  let pvc : PVC := { pvcFile with ns := ns }
  match genVolumeHandle store sc.provisioner importParams with
  | Except.error e => Except.error e
  | Except.ok volumeHandle =>
    let v : VolumeImporter :=
      { ns := ns, importParams := importParams, pvc := pvc, sc := sc,
        pvName := pvPre ++ pvc.name, volumeHandle := volumeHandle,
        capacity := pvc.storageRequest, attributes := [], readOnly := false,
        volumeMode := none, fsType := "",
        controllerPublishSecret := none, nodeStageSecret := none,
        nodePublishSecret := none, controllerExpandSecret := none }
    let v2 := (setSecret v).1
    let v3 := { v2 with readOnly := false, volumeMode := pvc.volumeMode }
    let v4 := { v3 with fsType := genFsType v3 }
    let v5 := { v4 with attributes := genAttributes v4 }
    Except.ok v5

/-- Whether the text contains a dollar sign immediately followed by an
opening brace, i.e. the start of a placeholder written in the
braced form. -/
def hbAux : List Char → Bool
  | [] => false
  | [_] => false
  | a :: b :: rest => (a = '$' && b = lbraceC) || hbAux (b :: rest)

/-- Whether a template contains any placeholder written in the braced
form (a dollar sign followed by an opening brace). -/
def hasBracedPlaceholder (t : String) : Bool := hbAux t.data

/-- A template consisting of a single braced placeholder with the given
name. -/
def tmplOf (name : String) : String :=
  String.mk ('$' :: lbraceC :: name.data ++ [rbraceC])

/-- A sample claim used to instantiate proved theorems. -/
def pvcEx : PVC := ⟨"claim1", "ns1", [], "sc1", "1Gi", none⟩

/-- A sample orchestrator state used to instantiate proved theorems. -/
def vEx : VolumeImporter :=
  ⟨"ns1", [], pvcEx, ⟨"drv", [(tokenFsTypeKey, "ext4")]⟩, "pv-claim1", "h", "1Gi", [],
    false, some PersistentVolumeMode.filesystem, "", none, none, none, none⟩

/-- A sample claim whose file-supplied namespace differs from the target
namespace. -/
def pvcF1 : PVC := ⟨"claim1", "filens", [], "sc1", "1Gi", none⟩

/-- A sample storage class whose parameters set a controller-publish
secret name key but no namespace key. -/
def scEx1 : StorageClass :=
  ⟨"drv", [("csi.storage.k8s.io/controller-publish-secret-name", "foo")]⟩

/-- A sample template store holding the template `h` for driver `drv`. -/
def store1 : String → Option String := fun d => if d = "drv" then some "h" else none

/-- The orchestrator state that `NewVolumeImporter` produces from the
sample inputs above. -/
def impEx1 : VolumeImporter :=
  ⟨"ns1", [], ⟨"claim1", "ns1", [], "sc1", "1Gi", none⟩, scEx1, "pv-claim1", "h", "1Gi", [],
    false, none, "", none, none, none, none⟩

/-! ### Properties of the expansion engine -/

/-- The names recorded as missing by the expansion are exactly the scanned
placeholder names whose lookup fails, in scan order. -/
theorem expandAux_missing (f : String → Option String) :
    ∀ fuel l, (expandAux f fuel l).2 = (tokensAux fuel l).filter (fun k => (f k).isNone) := by
  intro fuel
  induction fuel with
  | zero => intro l; rfl
  | succ n ih =>
    intro l
    cases l with
    | nil => rfl
    | cons c rest =>
      by_cases hc : c = '$'
      · subst hc
        cases rest with
        | nil => rfl
        | cons d ds =>
          by_cases h1 : (getShellName (d :: ds)).1 = []
          · by_cases h2 : (getShellName (d :: ds)).2 = 0
            · simp [expandAux, tokensAux, h1, h2, ih]
            · simp [expandAux, tokensAux, h1, h2, ih]
          · cases hf : f (String.mk (getShellName (d :: ds)).1) with
            | some v => simp [expandAux, tokensAux, h1, hf, ih]
            | none => simp [expandAux, tokensAux, h1, hf, ih]
      · simp [expandAux, tokensAux, hc, ih]

/-- The wrapper `expandCollect` records exactly the uncovered scanned names. -/
theorem expandCollect_missing (f : String → Option String) (l : List Char) :
    (expandCollect f l).2 = (tokensOf l).filter (fun k => (f k).isNone) :=
  expandAux_missing f l.length l

/-- A template without a dollar sign expands to itself with nothing missing. -/
theorem expandAux_no_dollar (f : String → Option String) :
    ∀ fuel l, l.length ≤ fuel → '$' ∉ l → expandAux f fuel l = (l, []) := by
  intro fuel
  induction fuel with
  | zero =>
    intro l hl _
    cases l with
    | nil => rfl
    | cons c rest => simp at hl
  | succ n ih =>
    intro l hl hd
    cases l with
    | nil => rfl
    | cons c rest =>
      have hc : ¬c = '$' := fun h => hd (h ▸ List.mem_cons_self c rest)
      have hrest : '$' ∉ rest := fun h => hd (List.mem_cons_of_mem c h)
      have hlen : rest.length ≤ n := by simpa using hl
      simp [expandAux, hc, ih rest hlen hrest]

/-- Membership in the sorted deduplicated missing set is membership in the
raw collected list. -/
theorem mem_sortedDedup {l : List String} {k : String} : k ∈ sortedDedup l ↔ k ∈ l := by
  unfold sortedDedup
  rw [List.mem_insertionSort, List.mem_dedup]

/-- The reported missing set has no duplicates. -/
theorem sortedDedup_nodup (l : List String) : (sortedDedup l).Nodup := by
  unfold sortedDedup
  exact (List.perm_insertionSort _ _).nodup_iff.mpr l.nodup_dedup

/-- The reported missing set is strictly sorted. -/
theorem sortedDedup_pairwise_lt (l : List String) : (sortedDedup l).Pairwise (· < ·) := by
  have hs : (sortedDedup l).Pairwise (· ≤ ·) := List.sorted_insertionSort _ _
  exact (hs.and (sortedDedup_nodup l)).imp fun h => lt_of_le_of_ne h.1 h.2

/-! ### C2: exactness of the missing-token report -/

/-- C2: for every template and parameter set, the expansion phase shared
by `resolveTemplate` and `genVolumeHandle` fails exactly when some scanned
placeholder has no entry (so no uncovered token is silently replaced by
the empty string), and the reported set is exactly the set of uncovered
placeholder names — duplicate occurrences collapsed, strictly sorted.
Both callers propagate the report unchanged as the invalid-tokens error. -/
theorem C2_missing_tokens_exact (t : String) :
    (∀ params : List (String × String),
      ((∃ e, expandPhase params t = Except.error e) ↔
        ∃ k, k ∈ tokensOf t.data ∧ goLookup params k = none) ∧
      (∀ ms, expandPhase params t = Except.error ms →
        (∀ k, k ∈ ms ↔ (k ∈ tokensOf t.data ∧ goLookup params k = none)) ∧
        ms.Nodup ∧ ms.Pairwise (· < ·))) ∧
    (∀ pvName pvc b ms, expandPhase (mkParams pvName pvc b) t = Except.error ms →
      resolveTemplate t pvName pvc b = Except.error (ImportError.invalidTokens ms)) ∧
    (∀ store prov ip tmpl ms, store prov = some tmpl →
      expandPhase ip (trimNewlineSuffix tmpl) = Except.error ms →
      genVolumeHandle store prov ip = Except.error (ImportError.invalidTokens ms)) := by
  refine ⟨fun params => ?_, fun pvName pvc b ms h => ?_,
    fun store prov ip tmpl ms hs h => ?_⟩
  · have hm := expandCollect_missing (goLookup params) t.data
    constructor
    · constructor
      · rintro ⟨e, he⟩
        unfold expandPhase at he
        split at he
        · exact absurd he (by simp)
        · rename_i hne
          rw [hm] at hne
          obtain ⟨k, hk⟩ := List.exists_mem_of_ne_nil _ hne
          obtain ⟨hk1, hk2⟩ := List.mem_filter.mp hk
          exact ⟨k, hk1, Option.isNone_iff_eq_none.mp hk2⟩
      · rintro ⟨k, hk, hnone⟩
        have hkf : k ∈ (tokensOf t.data).filter (fun k => (goLookup params k).isNone) :=
          List.mem_filter.mpr ⟨hk, by simp [hnone]⟩
        have hne : ¬(expandCollect (goLookup params) t.data).2 = [] := by
          rw [hm]; exact List.ne_nil_of_mem hkf
        exact ⟨_, by unfold expandPhase; rw [if_neg hne]⟩
    · intro ms hms
      unfold expandPhase at hms
      split at hms
      · exact absurd hms (by simp)
      · injection hms with hms'
        subst hms'
        refine ⟨fun k => ?_, sortedDedup_nodup _, sortedDedup_pairwise_lt _⟩
        rw [mem_sortedDedup, hm, List.mem_filter, Option.isNone_iff_eq_none]
  · unfold resolveTemplate
    rw [h]
  · simp [genVolumeHandle, hs, h]

/-- C2 witness: a template with one uncovered braced placeholder fails
through `resolveTemplate` with exactly that token, and an uncovered
placeholder makes the expansion phase fail. -/
theorem C2_witness :
    resolveTemplate "${missing}" "pv-claim1" pvcEx false =
      Except.error (ImportError.invalidTokens ["missing"]) ∧
    (∃ e, expandPhase [] "${a}" = Except.error e) :=
  ⟨(C2_missing_tokens_exact "${missing}").2.1 "pv-claim1" pvcEx false ["missing"] rfl,
    ((C2_missing_tokens_exact "${a}").1 []).1.mpr ⟨"a", by decide, rfl⟩⟩

/-! ### C3: placeholder-free templates -/

/-- C3 counterexample: the template `$a` contains no placeholder of the
braced form, yet with an empty parameter set its resolution does not
succeed with the template unchanged — the unbraced dollar form is also
expanded, and the uncovered name `a` makes resolution fail. -/
theorem C3_cex :
    hasBracedPlaceholder "$a" = false ∧
    expandPhase [] "$a" = Except.error ["a"] ∧
    expandPhase [] "$a" ≠ Except.ok "$a" := by
  refine ⟨rfl, rfl, fun h => ?_⟩
  rw [show expandPhase [] "$a" = Except.error ["a"] from rfl] at h
  exact Except.noConfusion h

/-- C3 amended: a template containing no dollar sign at all resolves to
itself, with no missing tokens, for every parameter set. -/
theorem C3_amended_no_dollar (params : List (String × String)) (t : String)
    (h : '$' ∉ t.data) : expandPhase params t = Except.ok t := by
  have he := expandAux_no_dollar (goLookup params) t.data.length t.data le_rfl h
  unfold expandPhase expandCollect
  rw [he]
  rfl

/-- C3 amended, witness at a concrete dollar-free template. -/
theorem C3_witness : expandPhase [("x", "y")] "abc" = Except.ok "abc" :=
  C3_amended_no_dollar [("x", "y")] "abc" (by decide)

/-! ### C4, C5: secret template lookup -/

/-- C4: for every secret category, when neither the namespace key nor the
name key is present (canonical or deprecated), `GetSecret` returns no
secret and no error; when exactly one of the two logical fields is
present, it fails with the inconsistent-secret-config error. -/
theorem C4_secret_presence (scParams : List (String × String)) (t : secretType)
    (pvName : String) (pvc : PVC) :
    (List.lookup (nsKey t) scParams = none →
      List.lookup (deprecatedNsKey t) scParams = none →
      List.lookup (nameKey t) scParams = none →
      List.lookup (deprecatedNameKey t) scParams = none →
      GetSecret scParams t pvName pvc = Except.ok none) ∧
    (((List.lookup (nsKey t) scParams).isSome ∨
        (List.lookup (deprecatedNsKey t) scParams).isSome) →
      List.lookup (nameKey t) scParams = none →
      List.lookup (deprecatedNameKey t) scParams = none →
      ∃ a b, GetSecret scParams t pvName pvc =
        Except.error (ImportError.inconsistentSecretConfig a b)) ∧
    (List.lookup (nsKey t) scParams = none →
      List.lookup (deprecatedNsKey t) scParams = none →
      ((List.lookup (nameKey t) scParams).isSome ∨
        (List.lookup (deprecatedNameKey t) scParams).isSome) →
      ∃ a b, GetSecret scParams t pvName pvc =
        Except.error (ImportError.inconsistentSecretConfig a b)) := by
  refine ⟨fun h1 h2 h3 h4 => ?_, fun hns h3 h4 => ?_, fun h1 h2 hname => ?_⟩
  · simp [GetSecret, getSecretTemplate, lookupOr, h1, h2, h3, h4]
  · have hfound : (lookupOr scParams (nsKey t) (deprecatedNsKey t)).2 = true := by
      unfold lookupOr
      rcases hns with h | h <;> obtain ⟨v, hv⟩ := Option.isSome_iff_exists.mp h
      · simp [hv]
      · cases hc : List.lookup (nsKey t) scParams <;> simp [hv, hc]
    refine ⟨(lookupOr scParams (nsKey t) (deprecatedNsKey t)).1, "", ?_⟩
    simp [GetSecret, getSecretTemplate, lookupOr, h3, h4] at hfound ⊢
    simp [hfound]
  · have hfound : (lookupOr scParams (nameKey t) (deprecatedNameKey t)).2 = true := by
      unfold lookupOr
      rcases hname with h | h <;> obtain ⟨v, hv⟩ := Option.isSome_iff_exists.mp h
      · simp [hv]
      · cases hc : List.lookup (nameKey t) scParams <;> simp [hv, hc]
    refine ⟨"", (lookupOr scParams (nameKey t) (deprecatedNameKey t)).1, ?_⟩
    simp [GetSecret, getSecretTemplate, lookupOr, h1, h2] at hfound ⊢
    simp [hfound]

/-- C4 witness: with no secret keys at all `GetSecret` yields no secret;
with only a name key it fails with the inconsistent-secret-config error. -/
theorem C4_witness :
    GetSecret [] secretType.NodeStageSecret "pv-claim1" pvcEx = Except.ok none ∧
    (∃ a b, GetSecret [("csi.storage.k8s.io/node-stage-secret-name", "s")]
      secretType.NodeStageSecret "pv-claim1" pvcEx =
      Except.error (ImportError.inconsistentSecretConfig a b)) :=
  ⟨(C4_secret_presence [] secretType.NodeStageSecret "pv-claim1" pvcEx).1 rfl rfl rfl rfl,
    (C4_secret_presence [("csi.storage.k8s.io/node-stage-secret-name", "s")]
      secretType.NodeStageSecret "pv-claim1" pvcEx).2.2 rfl rfl (Or.inl (by decide))⟩

/-- C5: the canonical key always wins: when the canonical key of a field
is present its value is the template used, whatever the deprecated alias
holds; the deprecated alias is consulted only when the canonical key is
absent. -/
theorem C5_canonical_precedence (scParams : List (String × String)) (t : secretType)
    (v w : String) :
    (List.lookup (nsKey t) scParams = some v →
      List.lookup (nameKey t) scParams = some w →
      getSecretTemplate scParams t = Except.ok (v, w)) ∧
    (List.lookup (nsKey t) scParams = none →
      List.lookup (deprecatedNsKey t) scParams = some v →
      List.lookup (nameKey t) scParams = some w →
      getSecretTemplate scParams t = Except.ok (v, w)) := by
  constructor
  · intro hv hw
    simp [getSecretTemplate, lookupOr, hv, hw]
  · intro hn hv hw
    simp [getSecretTemplate, lookupOr, hn, hv, hw]

/-- C5 witness: with both the canonical and the deprecated namespace key
present, the canonical value is the one returned. -/
theorem C5_witness :
    getSecretTemplate
      [("csi.storage.k8s.io/controller-expand-secret-namespace", "cns"),
        ("controller-expand-secret-namespace", "other"),
        ("csi.storage.k8s.io/controller-expand-secret-name", "cn")]
      secretType.ControllerExpandSecret = Except.ok ("cns", "cn") :=
  (C5_canonical_precedence
    [("csi.storage.k8s.io/controller-expand-secret-namespace", "cns"),
      ("controller-expand-secret-namespace", "other"),
      ("csi.storage.k8s.io/controller-expand-secret-name", "cn")]
    secretType.ControllerExpandSecret "cns" "cn").1 rfl rfl


/-! ### C6: the two token namespaces -/

/-- Lookup distributes over list append on the found-flag. -/
theorem lookup_append_isSome (l₁ l₂ : List (String × String)) (k : String) :
    (List.lookup k (l₁ ++ l₂)).isSome =
      ((List.lookup k l₁).isSome || (List.lookup k l₂).isSome) := by
  induction l₁ with
  | nil => simp
  | cons a l ih =>
    obtain ⟨ka, va⟩ := a
    by_cases h : k = ka
    · have hb : (k == ka) = true := beq_iff_eq.mpr h
      simp [List.lookup, hb]
    · have hb : (k == ka) = false := beq_eq_false_iff_ne.mpr h
      simp [List.lookup, hb, ih]

/-- A key is found among the synthetic annotation entries exactly when it
is the annotation token of some annotation. -/
theorem lookup_map_annToken (anns : List (String × String)) (k : String) :
    (List.lookup k (anns.map (fun a => (annToken a.1, a.2)))).isSome = true ↔
      ∃ a, a ∈ anns ∧ k = annToken a.1 := by
  induction anns with
  | nil => simp
  | cons a l ih =>
    obtain ⟨ka, va⟩ := a
    by_cases h : k = annToken ka
    · have hb : (k == annToken ka) = true := beq_iff_eq.mpr h
      simp only [List.map_cons, List.lookup, hb]
      constructor
      · intro _
        exact ⟨(ka, va), List.mem_cons_self _ _, h⟩
      · intro _
        rfl
    · have hb : (k == annToken ka) = false := beq_eq_false_iff_ne.mpr h
      simp only [List.map_cons, List.lookup, hb]
      rw [ih]
      constructor
      · rintro ⟨a, ha, hk⟩
        exact ⟨a, List.mem_cons_of_mem _ ha, hk⟩
      · rintro ⟨a, ha, hk⟩
        rcases List.mem_cons.mp ha with he | hm
        · rw [he] at hk
          exact absurd hk h
        · exact ⟨a, hm, hk⟩

/-- Annotation tokens are injective in the annotation key. -/
theorem annToken_inj {a b : String} (h : annToken a = annToken b) : a = b := by
  have hd : "pvc.annotations[".data ++ ([squoteC] ++ (a.data ++ ([squoteC] ++ "]".data))) =
      "pvc.annotations[".data ++ ([squoteC] ++ (b.data ++ ([squoteC] ++ "]".data))) := by
    have hc := congrArg String.data h
    simpa [annToken, String.data_append, List.append_assoc] using hc
  have h1 := List.append_cancel_left hd
  have h2 := List.append_cancel_left h1
  have h3 := List.append_cancel_right h2
  exact congrArg String.mk h3

/-- The brace scan over a name without closing brace followed by a
closing brace finds exactly that name. -/
theorem braceScanAux_append {nm : List Char} (h : rbraceC ∉ nm) (rest : List Char) :
    braceScanAux (nm ++ rbraceC :: rest) = some nm := by
  induction nm with
  | nil => simp [braceScanAux]
  | cons c cs ih =>
    have hc : ¬c = rbraceC := fun hc => h (hc ▸ List.mem_cons_self c cs)
    have hcs : rbraceC ∉ cs := fun hm => h (List.mem_cons_of_mem c hm)
    simp [braceScanAux, hc, ih hcs]

/-- A template that is one braced placeholder resolves to the looked-up
value, or fails with exactly that token. -/
theorem expandPhase_tmplOf (params : List (String × String)) (name : String)
    (hbr : rbraceC ∉ name.data) (hne : name.data ≠ []) :
    expandPhase params (tmplOf name) =
      match goLookup params name with
      | some v => Except.ok v
      | none => Except.error [name] := by
  obtain ⟨nd⟩ := name
  have hbr' : rbraceC ∉ nd := hbr
  have hne' : ¬nd = [] := hne
  have hgs : getShellName (lbraceC :: (nd ++ [rbraceC])) = (nd, nd.length + 2) := by
    simp [getShellName, braceScanAux_append hbr']
  have hdrop : (lbraceC :: (nd ++ [rbraceC])).drop (nd.length + 2) = [] := by
    apply List.drop_eq_nil_of_le
    simp
  have hstep : expandAux (goLookup params) ((nd.length + 2) + 1)
      ('$' :: lbraceC :: (nd ++ [rbraceC])) =
      match goLookup params (String.mk nd) with
      | some v => (v.data ++ [], [])
      | none => ([], [String.mk nd]) := by
    simp only [expandAux, hgs, hdrop, hne', if_false, if_pos rfl]
    cases hf : goLookup params (String.mk nd) with
    | some v => simp [expandAux]
    | none => simp [expandAux]
  have hdata : (tmplOf (String.mk nd)).data = '$' :: lbraceC :: (nd ++ [rbraceC]) := rfl
  have hlen : ('$' :: lbraceC :: (nd ++ [rbraceC])).length = (nd.length + 2) + 1 := by
    simp
  unfold expandPhase expandCollect
  rw [hdata, hlen, hstep]
  cases hf : goLookup params (String.mk nd) with
  | some v => simp
  | none => simp [sortedDedup, List.insertionSort, List.orderedInsert]

/-- The namespace-template token set of `resolveTemplate`. -/
theorem mkParams_lookup_ns (pvName : String) (pvc : PVC) (k : String) :
    (goLookup (mkParams pvName pvc false) k).isSome = true ↔
      (k = "pv.name" ∨ k = "pvc.namespace") := by
  by_cases h1 : k = "pv.name"
  · have hb1 : (k == "pv.name") = true := beq_iff_eq.mpr h1
    simp [goLookup, mkParams, List.lookup, hb1, h1]
  · have hb1 : (k == "pv.name") = false := beq_eq_false_iff_ne.mpr h1
    by_cases h2 : k = "pvc.namespace"
    · have hb2 : (k == "pvc.namespace") = true := beq_iff_eq.mpr h2
      simp [goLookup, mkParams, List.lookup, hb1, hb2, h1, h2]
    · have hb2 : (k == "pvc.namespace") = false := beq_eq_false_iff_ne.mpr h2
      simp [goLookup, mkParams, List.lookup, hb1, hb2, h1, h2]

/-- The name-template token set of `resolveTemplate`. -/
theorem mkParams_lookup_name (pvName : String) (pvc : PVC) (k : String) :
    (goLookup (mkParams pvName pvc true) k).isSome = true ↔
      (k = "pv.name" ∨ k = "pvc.namespace" ∨ k = "pvc.name" ∨
        ∃ a, a ∈ pvc.annots ∧ k = annToken a.1) := by
  have hmk : mkParams pvName pvc true =
      [("pv.name", pvName), ("pvc.namespace", pvc.ns)] ++
        (("pvc.name", pvc.name) :: pvc.annots.map (fun a => (annToken a.1, a.2))) := rfl
  unfold goLookup
  rw [hmk, lookup_append_isSome]
  by_cases h1 : k = "pv.name"
  · have hb1 : (k == "pv.name") = true := beq_iff_eq.mpr h1
    simp [List.lookup, hb1, h1]
  · have hb1 : (k == "pv.name") = false := beq_eq_false_iff_ne.mpr h1
    by_cases h2 : k = "pvc.namespace"
    · have hb2 : (k == "pvc.namespace") = true := beq_iff_eq.mpr h2
      simp [List.lookup, hb1, hb2, h1, h2]
    · have hb2 : (k == "pvc.namespace") = false := beq_eq_false_iff_ne.mpr h2
      by_cases h3 : k = "pvc.name"
      · have hb3 : (k == "pvc.name") = true := beq_iff_eq.mpr h3
        simp [List.lookup, hb1, hb2, hb3, h1, h2, h3]
      · have hb3 : (k == "pvc.name") = false := beq_eq_false_iff_ne.mpr h3
        simp only [List.lookup, hb1, hb2, hb3]
        simp [h1, h2, h3, lookup_map_annToken]
        constructor
        · rintro ⟨x, a, hm, he⟩
          exact ⟨a, ⟨x, hm⟩, he.symm⟩
        · rintro ⟨a, ⟨x, hm⟩, he⟩
          exact ⟨x, a, hm, he.symm⟩

/-- C6: the namespace-template is resolved against exactly the tokens
`pv.name` and `pvc.namespace`, while the name-template is resolved
against those two plus `pvc.name` plus one bracket-quoted token per
claim annotation; a name-template referencing an absent annotation
fails with a missing-token error carrying exactly that bracketed token
string. -/
theorem C6_token_namespaces (pvName : String) (pvc : PVC) :
    (∀ k, (goLookup (mkParams pvName pvc false) k).isSome = true ↔
      (k = "pv.name" ∨ k = "pvc.namespace")) ∧
    (∀ k, (goLookup (mkParams pvName pvc true) k).isSome = true ↔
      (k = "pv.name" ∨ k = "pvc.namespace" ∨ k = "pvc.name" ∨
        ∃ a, a ∈ pvc.annots ∧ k = annToken a.1)) ∧
    ((∀ a ∈ pvc.annots, a.1 ≠ "team") →
      resolveTemplate (tmplOf (annToken "team")) pvName pvc true =
        Except.error (ImportError.invalidTokens [annToken "team"])) := by
  refine ⟨mkParams_lookup_ns pvName pvc, mkParams_lookup_name pvName pvc, fun hann => ?_⟩
  have hnone : goLookup (mkParams pvName pvc true) (annToken "team") = none := by
    rw [← Option.not_isSome_iff_eq_none]
    intro hs
    rcases (mkParams_lookup_name pvName pvc (annToken "team")).mp hs with
      h | h | h | ⟨a, ha, hk⟩
    · exact absurd h (by decide)
    · exact absurd h (by decide)
    · exact absurd h (by decide)
    · exact hann a ha (annToken_inj hk).symm
  have hres := expandPhase_tmplOf (mkParams pvName pvc true) (annToken "team")
      (by decide) (by decide)
  rw [hnone] at hres
  unfold resolveTemplate
  rw [hres]

/-- C6 witness: with no annotations present, a name template referencing
annotation `team` fails with exactly the bracketed token string. -/
theorem C6_witness :
    resolveTemplate (tmplOf (annToken "team")) "pv-claim1" pvcEx true =
      Except.error (ImportError.invalidTokens [annToken "team"]) :=
  (C6_token_namespaces "pv-claim1" pvcEx).2.2 (by decide)

/-! ### C7: DNS-1123 validation of resolved values -/

/-- One-step unfolding of the recogniser at the start of a label. -/
theorem dnsRun_start_cons (a : Char) (l : List Char) :
    dnsRun DnsState.start (a :: l) =
      if isLowerAlnum a then dnsRun DnsState.after l else false := rfl

/-- One-step unfolding of the recogniser after an alphanumeric. -/
theorem dnsRun_after_cons (a : Char) (l : List Char) :
    dnsRun DnsState.after (a :: l) =
      if a = '.' then dnsRun DnsState.start l
      else if isLowerAlnum a then dnsRun DnsState.after l
      else if a = '-' then dnsRun DnsState.dash l
      else false := rfl

/-- One-step unfolding of the recogniser after a hyphen. -/
theorem dnsRun_dash_cons (a : Char) (l : List Char) :
    dnsRun DnsState.dash (a :: l) =
      if isLowerAlnum a then dnsRun DnsState.after l
      else if a = '-' then dnsRun DnsState.dash l
      else false := rfl

/-- A character that is not lowercase alphanumeric, not a hyphen and not
a dot poisons the DNS recogniser from every state. -/
theorem dnsRun_mem_bad {c : Char} (halnum : isLowerAlnum c = false) (hdash : ¬c = '-')
    (hdot : ¬c = '.') : ∀ l, c ∈ l → ∀ st, dnsRun st l = false := by
  intro l
  induction l with
  | nil =>
    intro h
    exact absurd h (List.not_mem_nil c)
  | cons a rest ih =>
    intro hmem st
    by_cases hac : a = c
    · subst hac
      cases st <;> simp [dnsRun, halnum, hdash, hdot]
    · have hmem' : c ∈ rest := by
        rcases List.mem_cons.mp hmem with h | h
        · exact absurd h.symm hac
        · exact h
      cases st
      · simp only [dnsRun]
        split
        · exact ih hmem' _
        · rfl
      · simp only [dnsRun]
        split
        · exact ih hmem' _
        · split
          · exact ih hmem' _
          · split
            · exact ih hmem' _
            · rfl
      · simp only [dnsRun]
        split
        · exact ih hmem' _
        · split
          · exact ih hmem' _
          · rfl

/-- A trailing hyphen poisons the DNS recogniser from every state. -/
theorem dnsRun_last_dash : ∀ l, l.getLast? = some '-' → ∀ st, dnsRun st l = false := by
  intro l
  induction l with
  | nil =>
    intro h
    simp at h
  | cons a rest ih =>
    intro hlast st
    cases rest with
    | nil =>
      have ha : a = '-' := by simpa using hlast
      subst ha
      cases st <;> decide
    | cons b rest2 =>
      have hlast' : (b :: rest2).getLast? = some '-' := by
        rw [List.getLast?_cons_cons] at hlast
        exact hlast
      have ihall := ih hlast'
      cases st
      · rw [dnsRun_start_cons]
        split
        · exact ihall _
        · rfl
      · rw [dnsRun_after_cons]
        split
        · exact ihall _
        · split
          · exact ihall _
          · split
            · exact ihall _
            · rfl
      · rw [dnsRun_dash_cons]
        split
        · exact ihall _
        · split
          · exact ihall _
          · rfl

/-- Uppercase ASCII letters are not lowercase alphanumerics. -/
theorem isLowerAlnum_of_upper {c : Char} (h1 : 65 ≤ c.toNat) (h2 : c.toNat ≤ 90) :
    isLowerAlnum c = false := by
  unfold isLowerAlnum
  have d1 : decide (97 ≤ c.toNat) = false := decide_eq_false (by omega)
  have d2 : decide (c.toNat ≤ 57) = false := decide_eq_false (by omega)
  rw [d1, d2]
  simp

/-- C7: once the expansion phase of `resolveTemplate` yields a resolved
value, that value is validated as a DNS-1123 subdomain: a value
containing an uppercase letter or an underscore, or starting or ending
with a hyphen, is rejected with the invalid-name error carrying the
offending template and the resolved value, while a value accepted by the
validator is returned as is. -/
theorem C7_dns_validation (template pvName : String) (pvc : PVC) (b : Bool) (v : String)
    (hexp : expandPhase (mkParams pvName pvc b) template = Except.ok v) :
    (((∃ c, c ∈ v.data ∧ ((65 ≤ c.toNat ∧ c.toNat ≤ 90) ∨ c = '_')) ∨
        v.data.head? = some '-' ∨ v.data.getLast? = some '-') →
      resolveTemplate template pvName pvc b =
        Except.error (ImportError.invalidDNSName template v)) ∧
    (isDNS1123Subdomain v = true → resolveTemplate template pvName pvc b = Except.ok v) := by
  have hres : resolveTemplate template pvName pvc b =
      if isDNS1123Subdomain v then Except.ok v
      else Except.error (ImportError.invalidDNSName template v) := by
    unfold resolveTemplate
    rw [hexp]
  constructor
  · intro hbad
    have hrun : dnsRun DnsState.start v.data = false := by
      rcases hbad with ⟨c, hc, hcs⟩ | hh | hl
      · have halnum : isLowerAlnum c = false := by
          rcases hcs with ⟨h65, h90⟩ | hund
          · exact isLowerAlnum_of_upper h65 h90
          · rw [hund]
            decide
        have h45 : ('-').toNat = 45 := by decide
        have h46 : ('.').toNat = 46 := by decide
        have hdash : ¬c = '-' := by
          intro h
          rcases hcs with ⟨h65, _⟩ | hund
          · rw [h, h45] at h65
            exact absurd h65 (by decide)
          · rw [hund] at h
            exact absurd h (by decide)
        have hdot : ¬c = '.' := by
          intro h
          rcases hcs with ⟨h65, _⟩ | hund
          · rw [h, h46] at h65
            exact absurd h65 (by decide)
          · rw [hund] at h
            exact absurd h (by decide)
        exact dnsRun_mem_bad halnum hdash hdot v.data hc DnsState.start
      · cases hv : v.data with
        | nil =>
          rw [hv] at hh
          simp at hh
        | cons a t =>
          rw [hv] at hh
          simp at hh
          subst hh
          simp [dnsRun, show isLowerAlnum '-' = false from by decide]
      · exact dnsRun_last_dash v.data hl DnsState.start
    have hsub : isDNS1123Subdomain v = false := by
      unfold isDNS1123Subdomain
      rw [hrun]
      simp
    rw [hres, hsub]
    simp
  · intro h
    rw [hres, h]
    simp

/-- C7 witness: the resolved value `My_Secret` is rejected with the
invalid-name error; the resolved value `my-secret.01` is accepted. -/
theorem C7_witness :
    resolveTemplate "My_Secret" "pv-claim1" pvcEx false =
      Except.error (ImportError.invalidDNSName "My_Secret" "My_Secret") ∧
    resolveTemplate "my-secret.01" "pv-claim1" pvcEx false = Except.ok "my-secret.01" :=
  ⟨(C7_dns_validation "My_Secret" "pv-claim1" pvcEx false "My_Secret" rfl).1
      (Or.inl ⟨'_', by decide, Or.inr rfl⟩),
    (C7_dns_validation "my-secret.01" "pv-claim1" pvcEx false "my-secret.01" rfl).2
      (by decide)⟩

/-! ### C8: the volume-handle deriver -/

/-- C8: `genVolumeHandle` fails with the lookup error when the driver has
no template; it strips one trailing newline from the loaded template
before substitution; on successful expansion against the caller-supplied
parameters it returns the expansion verbatim, with no further
validation; and it propagates the missing-token report unchanged. -/
theorem C8_volume_handle (store : String → Option String) (prov : String)
    (ip : List (String × String)) (tmpl hh : String) :
    (store prov = none →
      genVolumeHandle store prov ip = Except.error (ImportError.templateNotFound prov)) ∧
    (∀ t0 : String, trimNewlineSuffix (t0 ++ "\n") = t0) ∧
    (store prov = some tmpl →
      expandPhase ip (trimNewlineSuffix tmpl) = Except.ok hh →
      genVolumeHandle store prov ip = Except.ok hh) ∧
    (∀ ms, store prov = some tmpl →
      expandPhase ip (trimNewlineSuffix tmpl) = Except.error ms →
      genVolumeHandle store prov ip = Except.error (ImportError.invalidTokens ms)) := by
  refine ⟨fun h => ?_, fun t0 => ?_, fun hs he => ?_, fun ms hs he => ?_⟩
  · simp [genVolumeHandle, h]
  · have hd : (t0 ++ "\n").data = t0.data ++ ['\n'] := by
      rw [String.data_append]
    unfold trimNewlineSuffix
    rw [hd, List.getLast?_concat, if_pos rfl, List.dropLast_concat]
  · simp [genVolumeHandle, hs, he]
  · simp [genVolumeHandle, hs, he]

/-- C8 witness: a missing driver template is a lookup error, and a
template with a trailing newline resolves against the caller parameters
to a value returned verbatim even though it is not a valid DNS name. -/
theorem C8_witness :
    genVolumeHandle store1 "other" [("size", "10_Gi")] =
      Except.error (ImportError.templateNotFound "other") ∧
    genVolumeHandle (fun d => if d = "drv" then some "handle-${size}\n" else none) "drv"
      [("size", "10_Gi")] = Except.ok "handle-10_Gi" :=
  ⟨(C8_volume_handle store1 "other" [("size", "10_Gi")] "" "").1 rfl,
    (C8_volume_handle (fun d => if d = "drv" then some "handle-${size}\n" else none) "drv"
      [("size", "10_Gi")] "handle-${size}\n" "handle-10_Gi").2.2.1 rfl rfl⟩

/-! ### Orchestrator lemmas -/

/-- The embedded `setSecret` writes only the four secret-reference fields. -/
theorem setSecret_fields (v : VolumeImporter) :
    ∃ a b c d, (setSecret v).1 = { v with controllerPublishSecret := a, nodeStageSecret := b, nodePublishSecret := c, controllerExpandSecret := d } := by
  unfold setSecret
  cases h1 : GetSecret v.sc.parameters secretType.ControllerPublishSecret v.pvName v.pvc with
  | error e =>
    exact ⟨none, v.nodeStageSecret, v.nodePublishSecret, v.controllerExpandSecret, rfl⟩
  | ok s1 =>
    cases h2 : GetSecret v.sc.parameters secretType.NodeStageSecret v.pvName v.pvc with
    | error e => exact ⟨s1, none, v.nodePublishSecret, v.controllerExpandSecret, rfl⟩
    | ok s2 =>
      cases h3 : GetSecret v.sc.parameters secretType.NodePublishSecret v.pvName v.pvc with
      | error e => exact ⟨s1, s2, none, v.controllerExpandSecret, rfl⟩
      | ok s3 =>
        cases h4 : GetSecret v.sc.parameters secretType.ControllerExpandSecret v.pvName v.pvc with
        | error e => exact ⟨s1, s2, s3, none, rfl⟩
        | ok s4 => exact ⟨s1, s2, s3, s4, rfl⟩

/-- The fields a successful `NewVolumeImporter` run stores: the claim
with its namespace overwritten, the storage class, the claim's volume
mode, the prefixed volume name, and a filesystem type that agrees with
`genFsType` on the final state. -/
theorem NewVolumeImporter_ok {ns : String} {pvcFile : PVC} {sc : StorageClass}
    {ip : List (String × String)} {store : String → Option String} {imp : VolumeImporter}
    (h : NewVolumeImporter ns pvcFile sc ip store = Except.ok imp) :
    imp.pvc = { pvcFile with ns := ns } ∧ imp.sc = sc ∧
    imp.volumeMode = pvcFile.volumeMode ∧ imp.pvName = pvPre ++ pvcFile.name ∧
    imp.fsType = genFsType imp := by
  cases hg : genVolumeHandle store sc.provisioner ip with
  | error e =>
    simp only [NewVolumeImporter, hg] at h
    exact absurd h (by simp)
  | ok vh =>
    simp only [NewVolumeImporter, hg, Except.ok.injEq] at h
    obtain ⟨a, b, c, d, hset⟩ := setSecret_fields
      { ns := ns, importParams := ip, pvc := { pvcFile with ns := ns }, sc := sc,
        pvName := pvPre ++ ({ pvcFile with ns := ns } : PVC).name, volumeHandle := vh,
        capacity := ({ pvcFile with ns := ns } : PVC).storageRequest, attributes := [],
        readOnly := false, volumeMode := none, fsType := "",
        controllerPublishSecret := none, nodeStageSecret := none,
        nodePublishSecret := none, controllerExpandSecret := none }
    rw [hset] at h
    subst h
    refine ⟨rfl, rfl, rfl, rfl, ?_⟩
    simp [genFsType]

/-! ### C9: the derived filesystem type -/

/-- C9: the derived filesystem type is empty whenever the volume mode is
raw block; otherwise it is the `csi.storage.k8s.io/fsType` storage-class
parameter when present and empty when absent; and a successful run stores
the claim's volume mode together with the so-derived filesystem type. -/
theorem C9_fs_type :
    (∀ v : VolumeImporter,
      (v.volumeMode = some PersistentVolumeMode.block → genFsType v = "") ∧
      (v.volumeMode ≠ some PersistentVolumeMode.block →
        (∀ s, List.lookup tokenFsTypeKey v.sc.parameters = some s → genFsType v = s) ∧
        (List.lookup tokenFsTypeKey v.sc.parameters = none → genFsType v = ""))) ∧
    (∀ ns pvcFile sc ip store imp,
      NewVolumeImporter ns pvcFile sc ip store = Except.ok imp →
      imp.volumeMode = pvcFile.volumeMode ∧ imp.sc = sc ∧ imp.fsType = genFsType imp) := by
  constructor
  · intro v
    constructor
    · intro h
      simp [genFsType, h]
    · intro h
      constructor
      · intro s hs
        simp [genFsType, h, hs]
      · intro hn
        simp [genFsType, h, hn]
  · intro ns pvcFile sc ip store imp h
    obtain ⟨hpvc, hsc, hvm, hpn, hft⟩ := NewVolumeImporter_ok h
    exact ⟨hvm, hsc, hft⟩

/-- C9 witness: with filesystem mode and the fsType parameter set, the
derived filesystem type is the parameter value. -/
theorem C9_witness : genFsType vEx = "ext4" :=
  ((C9_fs_type.1 vEx).2 (by decide)).1 "ext4" rfl

/-! ### C10: namespace overwrite -/

/-- C10: the claim's namespace is overwritten with the target namespace
before any resolution occurs, so the stored claim namespace and the
`pvc.namespace` token of both resolution parameter maps equal the target
namespace regardless of the namespace in the claim file. -/
theorem C10_namespace_overwrite (ns : String) (pvcFile : PVC) (sc : StorageClass)
    (ip : List (String × String)) (store : String → Option String) (imp : VolumeImporter)
    (h : NewVolumeImporter ns pvcFile sc ip store = Except.ok imp) :
    imp.pvc.ns = ns ∧
    goLookup (mkParams imp.pvName imp.pvc false) "pvc.namespace" = some ns ∧
    goLookup (mkParams imp.pvName imp.pvc true) "pvc.namespace" = some ns := by
  obtain ⟨hpvc, _, _, _, _⟩ := NewVolumeImporter_ok h
  have hns : imp.pvc.ns = ns := by rw [hpvc]
  refine ⟨hns, ?_, ?_⟩ <;> simp [goLookup, mkParams, List.lookup, hns]

/-- C10 witness: a run whose claim file names namespace `filens` but
whose target namespace is `ns1` stores and resolves namespace `ns1`. -/
theorem C10_witness :
    impEx1.pvc.ns = "ns1" ∧
    goLookup (mkParams impEx1.pvName impEx1.pvc false) "pvc.namespace" = some "ns1" ∧
    goLookup (mkParams impEx1.pvName impEx1.pvc true) "pvc.namespace" = some "ns1" :=
  C10_namespace_overwrite "ns1" pvcF1 scEx1 [] store1 impEx1 rfl

/-! ### C1: error propagation in the orchestrator -/

/-- C1 (defect witness): with a storage class carrying only a
controller-publish secret name key, secret resolution fails with the
inconsistent-secret-config error and `setSecret` returns it, yet
`NewVolumeImporter` drops that error and completes successfully, so the
run is not aborted; by contrast a `genVolumeHandle` failure (here: no
template for the driver) is propagated and does abort the run. -/
theorem C1_setSecret_error_dropped :
    GetSecret scEx1.parameters secretType.ControllerPublishSecret "pv-claim1"
      ⟨"claim1", "ns1", [], "sc1", "1Gi", none⟩ =
      Except.error (ImportError.inconsistentSecretConfig "" "foo") ∧
    (setSecret impEx1).2 = some (ImportError.inconsistentSecretConfig "" "foo") ∧
    NewVolumeImporter "ns1" pvcF1 scEx1 [] store1 = Except.ok impEx1 ∧
    NewVolumeImporter "ns1" pvcF1 ⟨"nodrv", []⟩ [] store1 =
      Except.error (ImportError.templateNotFound "nodrv") :=
  ⟨rfl, rfl, rfl, rfl⟩
